import Mathlib

/-!
Verification development for the cloudflare-blog-REST-API repository
(a WordPress-compatible REST backend on Cloudflare Workers).

The definitions below are a shallow embedding of the response-shaping and
permission-resolution layer of the source: JS strings become `String`,
JS `undefined`/`null` become `Option`, the D1 database becomes explicit
lists of rows threaded through the handlers, and fallible handlers return
`Except WPError α`.  External primitives (the MD5/HMAC digests of
`crypto.subtle`, the AI text generator, bcrypt) are passed in as function
or `Option` parameters, exactly at the boundary where the source calls
out of process.  JS string operations are modelled on ASCII data
(`toLowerCase`, `trim`, `\w`, `\s` agree with the Lean counterparts on
ASCII, which is the range the spec's examples exercise).
-/

namespace CFBlog

/-! ### JS value helpers

`jsFalsy`/`jsOr` model JS truthiness for `string | undefined | null`
values: `undefined`, `null` and `""` are falsy. -/

def jsFalsy : Option String → Bool
  | none => true
  | some s => s = ""

def jsOr (o : Option String) (d : String) : String :=
  match o with
  | none => d
  | some s => if s = "" then d else s

/-- JS `x || 0` / `parent || 0` on `number | undefined | null`. -/
def jsOrNat (o : Option Nat) (d : Nat) : Nat :=
  match o with
  | none => d
  | some n => if n = 0 then d else n

/-- JS `String.prototype.toLowerCase` (ASCII range). -/
def jsToLower (s : String) : String := ⟨s.data.map Char.toLower⟩

def jsIsSpace (c : Char) : Bool := c.isWhitespace

/-- JS `String.prototype.trim` (strip whitespace at both ends). -/
def jsTrim (s : String) : String :=
  ⟨((s.data.dropWhile jsIsSpace).reverse.dropWhile jsIsSpace).reverse⟩

/-! ### Decimal rendering of numbers

JS template interpolation `${counter}` renders a number in decimal.
`numToString` is that decimal rendering (little-endian digit list,
reversed and mapped to digit characters); it is fuel-structural so that
it evaluates inside `decide`/`rfl`, and we prove it injective, which the
slug-collision termination bound needs. -/

def digitsRevAux : Nat → Nat → List Nat
  | 0, _ => []
  | fuel+1, n => if n = 0 then [] else n % 10 :: digitsRevAux fuel (n / 10)

def digitsRev (n : Nat) : List Nat := digitsRevAux n n

def numToString (n : Nat) : String :=
  if n = 0 then "0" else ⟨((digitsRev n).map Nat.digitChar).reverse⟩

def decodeRev : List Nat → Nat
  | [] => 0
  | d :: ds => d + 10 * decodeRev ds

/-! ### Slug generation (README `generateSlug`)

Source:
```
title.toLowerCase().trim()
  .replace(/[^\w\s-]/g, '')
  .replace(/[\s_-]+/g, '-')
  .replace(/^-+|-+$/g, '')
```
-/

def isWordCharJS (c : Char) : Bool := c.isAlphanum || c = '_'

def keepSlugChar (c : Char) : Bool := isWordCharJS c || c.isWhitespace || c = '-'

def isSepChar (c : Char) : Bool := c.isWhitespace || c = '_' || c = '-'

/-- Replace every maximal run of characters satisfying `p` by a single
hyphen (the effect of `.replace(/[X]+/g, '-')`). -/
def collapseRuns (p : Char → Bool) : Bool → List Char → List Char
  | _, [] => []
  | inRun, c :: rest =>
    if p c then
      if inRun then collapseRuns p true rest else '-' :: collapseRuns p true rest
    else c :: collapseRuns p false rest

/-- The effect of `.replace(/^-+|-+$/g, '')`. -/
def stripEdgeHyphens (l : List Char) : List Char :=
  ((l.dropWhile (· == '-')).reverse.dropWhile (· == '-')).reverse

def generateSlug (title : String) : String :=
  ⟨stripEdgeHyphens (collapseRuns isSepChar false
    (((jsTrim (jsToLower title)).data).filter keepSlugChar))⟩

/-! ### AI slug generation (README `generateSlugWithAI`)

The raw model response is an `Option String` parameter (`none` models the
AI call failing / being unavailable); the cleanup and the deterministic
fallback are embedded from the source. -/

def keepAiSlugChar (c : Char) : Bool :=
  (('a' ≤ c && c ≤ 'z') || c.isDigit) || c.isWhitespace || c = '-'

/-- `.replace(/^slug:\s*/i, '')` on an already-lowercased string. -/
def dropSlugPrefixCI (l : List Char) : List Char :=
  match l with
  | 's' :: 'l' :: 'u' :: 'g' :: ':' :: rest => rest.dropWhile jsIsSpace
  | _ => l

def generateSlugWithAI (aiResp : Option String) (title : String) : String :=
  match aiResp with
  | none => generateSlug title
  | some resp =>
    let s0 := (jsToLower (jsTrim resp)).data
    let s1 := dropSlugPrefixCI s0
    let s2 := s1.filter keepAiSlugChar
    let s3 := collapseRuns jsIsSpace false s2
    let s4 := collapseRuns (· == '-') false s3
    let sStr : String := ⟨stripEdgeHyphens s4⟩
    if sStr = "" || sStr.length < 2 then generateSlug title else sStr

/-! ### Slug uniqueness loop (posts.post, lines 299-311)

```
let slugExists = ... WHERE slug = postSlug ...
let counter = 1
const baseSlug = postSlug
while (slugExists) {
  postSlug = `${baseSlug}-${counter}`
  slugExists = ... WHERE slug = postSlug ...
  counter++
}
```
The candidates tried are `base`, `base-1`, `base-2`, …; `findSlug`
is the loop with explicit fuel, and `ensureUniqueSlug` runs it with fuel
equal to the number of existing rows, which the termination theorem
shows is always enough. -/

def slugCandidate (base : String) : Nat → String
  | 0 => base
  | k+1 => base ++ "-" ++ numToString (k+1)

def findSlug (taken : List String) (base : String) : Nat → Nat → Option String
  | fuel, k =>
    if slugCandidate base k ∈ taken then
      match fuel with
      | 0 => none
      | f+1 => findSlug taken base f (k+1)
    else some (slugCandidate base k)

def ensureUniqueSlug (taken : List String) (base : String) : String :=
  (findSlug taken base taken.length 0).getD base

/-! ### Data model

Rows mirror the D1 schema and the TypeScript interfaces in `types.ts`;
nullable columns become `Option`.  `BlogState` is the database: lists of
rows, the two join tables, the denormalized category/tag counters (a
total function, since ids are unique keys), and the AUTOINCREMENT
cursors. -/

structure WPError where
  code : String
  message : String
  status : Nat
deriving DecidableEq

structure JWTPayload where
  userId : Nat
  username : String
  email : String
  role : String
deriving DecidableEq

structure UserRow where
  id : Nat
  username : String
  email : String
  password : String
  display_name : Option String
  role : String
  status : String
  registered_at : String
  last_login : Option String
  avatar_url : Option String
  bio : Option String
deriving DecidableEq

structure PostRow where
  id : Nat
  title : String
  content : Option String
  excerpt : Option String
  slug : String
  status : String
  post_type : String
  author_id : Nat
  parent_id : Nat
  featured_media_id : Option Nat
  featured_image_url : Option String
  comment_status : String
  comment_count : Nat
  view_count : Nat
  created_at : String
  updated_at : String
  published_at : Option String
deriving DecidableEq

structure CommentRow where
  id : Nat
  post_id : Nat
  parent_id : Nat
  author_name : String
  author_email : String
  author_url : Option String
  author_ip : Option String
  content : String
  status : String
  user_id : Option Nat
  created_at : String
deriving DecidableEq

structure BlogState where
  users : List UserRow
  posts : List PostRow
  comments : List CommentRow
  catCounts : Nat → Int
  postCats : List (Nat × Nat)
  tagCounts : Nat → Int
  postTags : List (Nat × Nat)
  nextUserId : Nat
  nextPostId : Nat
  nextCommentId : Nat

/-! ### Authorization predicates (`auth.ts`) -/

/-- auth.ts `canDeletePost`: only administrator and editor; the post id
is received but the post row is never consulted. -/
def canDeletePost (user : Option JWTPayload) (_postId : Nat) : Bool :=
  match user with
  | none => false
  | some u => u.role == "administrator" || u.role == "editor"

/-- auth.ts `canPublishPost`. -/
def canPublishPost (user : Option JWTPayload) : Bool :=
  match user with
  | none => false
  | some u => ["administrator", "editor", "author"].contains u.role

/-- auth.ts `canEditPost`: admin/editor on any post, author/contributor
only when the stored `author_id` equals their own id. -/
def canEditPost (user : Option JWTPayload) (posts : List PostRow) (postId : Nat) : Bool :=
  match user with
  | none => false
  | some u =>
    if u.role == "administrator" || u.role == "editor" then true
    else if u.role == "author" || u.role == "contributor" then
      match posts.find? (fun p => p.id == postId) with
      | some p => p.author_id == u.userId
      | none => false
    else false

/-- The `isAdmin` resolution used by the comment endpoints:
authenticated with role administrator or editor. -/
def isAdminViewer (user : Option JWTPayload) : Bool :=
  match user with
  | none => false
  | some u => ["administrator", "editor"].contains u.role

/-! ### Response formatting (utils, README version)

`digest` stands for the hex-encoded MD5 of `crypto.subtle`, an external
primitive; the source's `md5` lower-cases and trims the text before
digesting, and that normalization is embedded here. -/

def md5 (digest : String → String) (text : String) : String :=
  digest (jsTrim (jsToLower text))

/-- `.replace(/\/$/, '')`. -/
def normalizeBaseUrl (baseUrl : String) : String :=
  match baseUrl.data.getLast? with
  | some c => if c = '/' then ⟨baseUrl.data.dropLast⟩ else baseUrl
  | none => baseUrl

/-- JS `x || null` on a `number | undefined` value (`0` is falsy). -/
def jsNatOrNull (o : Option Nat) : Option Nat :=
  match o with
  | none => none
  | some n => if n = 0 then none else some n

/-- JS `x || null` / `x || undefined` on a string value (`""` is falsy). -/
def jsStrOrNull (o : Option String) : Option String :=
  match o with
  | none => none
  | some s => if s = "" then none else some s

structure AvatarUrls where
  size24 : String
  size48 : String
  size96 : String
deriving DecidableEq

structure UserLinks where
  self : String
  collection : String
deriving DecidableEq

structure UserResponse where
  id : Nat
  name : String
  url : String
  description : String
  link : String
  slug : String
  avatar_urls : AvatarUrls
  roles : List String
  role : String
  registered_date : String
  email : Option String
  links : UserLinks
deriving DecidableEq

/-- README `formatUserResponse`: Gravatar URLs derived from the MD5 of
the email unless `avatar_url` is set; `email` in the output only when
`isAdmin`. -/
def formatUserResponse (digest : String → String) (user : UserRow)
    (baseUrl : String) (isAdmin : Bool) : UserResponse :=
  let b := normalizeBaseUrl baseUrl
  let emailHash := md5 digest user.email
  { id := user.id
    name := jsOr user.display_name user.username
    url := ""
    description := jsOr user.bio ""
    link := b ++ "/author/" ++ user.username
    slug := user.username
    avatar_urls := {
      size24 := jsOr user.avatar_url
        ("https://www.gravatar.com/avatar/" ++ emailHash ++ "?s=24&d=mm&r=g")
      size48 := jsOr user.avatar_url
        ("https://www.gravatar.com/avatar/" ++ emailHash ++ "?s=48&d=mm&r=g")
      size96 := jsOr user.avatar_url
        ("https://www.gravatar.com/avatar/" ++ emailHash ++ "?s=96&d=mm&r=g") }
    roles := [user.role]
    role := user.role
    registered_date := user.registered_at
    email := if isAdmin then some user.email else none
    links := {
      self := b ++ "/wp-json/wp/v2/users/" ++ numToString user.id
      collection := b ++ "/wp-json/wp/v2/users" } }

structure CommentLinks where
  self : String
  collection : String
  up : String
deriving DecidableEq

def generateCommentLinks (comment : CommentRow) (baseUrl : String) : CommentLinks :=
  let b := normalizeBaseUrl baseUrl
  { self := b ++ "/wp-json/wp/v2/comments/" ++ numToString comment.id
    collection := b ++ "/wp-json/wp/v2/comments"
    up := b ++ "/wp-json/wp/v2/posts/" ++ numToString comment.post_id }

structure CommentResponse where
  id : Nat
  post : Nat
  parent : Nat
  author : Nat
  author_name : String
  author_url : String
  date : String
  date_gmt : String
  content_rendered : String
  link : String
  status : String
  type : String
  author_avatar_urls : AvatarUrls
  author_email : Option String
  author_ip : Option String
  links : CommentLinks
deriving DecidableEq

/-- README `formatCommentResponse`: `author_email` and `author_ip` are
added to the response object only when `isAdmin` (modelled as `Option`
fields: `none` = field absent). -/
def formatCommentResponse (digest : String → String) (comment : CommentRow)
    (baseUrl : String) (postSlug : Option String) (isAdmin : Bool) : CommentResponse :=
  let b := normalizeBaseUrl baseUrl
  let emailHash := md5 digest comment.author_email
  { id := comment.id
    post := comment.post_id
    parent := comment.parent_id
    author := comment.user_id.getD 0
    author_name := comment.author_name
    author_url := jsOr comment.author_url ""
    date := comment.created_at
    date_gmt := comment.created_at
    content_rendered := comment.content
    link :=
      if jsFalsy postSlug then
        b ++ "/posts/" ++ numToString comment.post_id ++ "#comment-" ++ numToString comment.id
      else
        b ++ "/" ++ postSlug.getD "" ++ "#comment-" ++ numToString comment.id
    status := comment.status
    type := "comment"
    author_avatar_urls := {
      size24 := "https://www.gravatar.com/avatar/" ++ emailHash ++ "?s=24&d=mm&r=g"
      size48 := "https://www.gravatar.com/avatar/" ++ emailHash ++ "?s=48&d=mm&r=g"
      size96 := "https://www.gravatar.com/avatar/" ++ emailHash ++ "?s=96&d=mm&r=g" }
    author_email := if isAdmin then some comment.author_email else none
    author_ip := if isAdmin then some (jsOr comment.author_ip "") else none
    links := generateCommentLinks comment baseUrl }

structure PostLinks where
  self : String
  collection : String
  about : String
  author : String
  replies : String
  versionHistory : String
  wpAttachment : String
  wpTermCategory : String
  wpTermTag : String
  curies : String
deriving DecidableEq

def generatePostLinks (post : PostRow) (baseUrl : String) : PostLinks :=
  let b := normalizeBaseUrl baseUrl
  { self := b ++ "/wp-json/wp/v2/posts/" ++ numToString post.id
    collection := b ++ "/wp-json/wp/v2/posts"
    about := b ++ "/wp-json/wp/v2/types/" ++ post.post_type
    author := b ++ "/wp-json/wp/v2/users/" ++ numToString post.author_id
    replies := b ++ "/wp-json/wp/v2/comments?post=" ++ numToString post.id
    versionHistory := b ++ "/wp-json/wp/v2/posts/" ++ numToString post.id ++ "/revisions"
    wpAttachment := b ++ "/wp-json/wp/v2/media?parent=" ++ numToString post.id
    wpTermCategory := b ++ "/wp-json/wp/v2/categories?post=" ++ numToString post.id
    wpTermTag := b ++ "/wp-json/wp/v2/tags?post=" ++ numToString post.id
    curies := "https://api.w.org/\x7brel\x7d" }

structure PostResponse where
  id : Nat
  date : String
  date_gmt : String
  modified : String
  modified_gmt : String
  slug : String
  status : String
  type : String
  link : String
  title_rendered : String
  content_rendered : String
  content_protected : Bool
  excerpt_rendered : String
  excerpt_protected : Bool
  author : Nat
  featured_media : Nat
  featured_image_url : Option String
  comment_status : String
  ping_status : String
  sticky : Bool
  template : String
  format : String
  categories : List Nat
  tags : List Nat
  comment_count : Nat
  view_count : Nat
  links : PostLinks
deriving DecidableEq

/-- README `formatPostResponse`: public date is `published_at ||
created_at`. -/
def formatPostResponse (post : PostRow) (baseUrl : String)
    (categories : List Nat) (tags : List Nat) : PostResponse :=
  let b := normalizeBaseUrl baseUrl
  { id := post.id
    date := jsOr post.published_at post.created_at
    date_gmt := jsOr post.published_at post.created_at
    modified := post.updated_at
    modified_gmt := post.updated_at
    slug := post.slug
    status := post.status
    type := post.post_type
    link := b ++ "/" ++ post.slug
    title_rendered := post.title
    content_rendered := jsOr post.content ""
    content_protected := post.status == "private"
    excerpt_rendered := jsOr post.excerpt ""
    excerpt_protected := false
    author := post.author_id
    featured_media := (jsNatOrNull post.featured_media_id).getD 0
    featured_image_url := jsStrOrNull post.featured_image_url
    comment_status := post.comment_status
    ping_status := "closed"
    sticky := false
    template := ""
    format := "standard"
    categories := categories
    tags := tags
    comment_count := post.comment_count
    view_count := post.view_count
    links := generatePostLinks post baseUrl }

/-! ### Post endpoints (`routes/posts.ts`) -/

/-- `SELECT * FROM posts WHERE id = ? AND post_type = 'post'`. -/
def findPost (posts : List PostRow) (id : Nat) : Option PostRow :=
  posts.find? (fun p => p.id == id && p.post_type == "post")

def postCatIds (s : BlogState) (pid : Nat) : List Nat :=
  (s.postCats.filter (fun pc => pc.1 == pid)).map (fun pc => pc.2)

def postTagIds (s : BlogState) (pid : Nat) : List Nat :=
  (s.postTags.filter (fun pc => pc.1 == pid)).map (fun pc => pc.2)

/-- GET /wp/v2/posts/:id — optional auth, 404 only when the row is
missing, view counter incremented, the pre-increment row formatted.
The resolved viewer identity is attached by `optionalAuthMiddleware`
but never read by this handler. -/
def getPostById (s : BlogState) (_viewer : Option JWTPayload) (id : Nat)
    (baseUrl : String) : Except WPError (PostResponse × BlogState) :=
  match findPost s.posts id with
  | none => .error ⟨"rest_post_invalid_id", "Invalid post ID.", 404⟩
  | some post =>
    let categoryIds := postCatIds s id
    let tagIds := postTagIds s id
    let s2 := { s with posts := s.posts.map (fun q =>
      if q.id == id then { q with view_count := q.view_count + 1 } else q) }
    .ok (formatPostResponse post baseUrl categoryIds tagIds, s2)

/-- `UPDATE (categories|tags) SET count = count + 1 WHERE id = ?`. -/
def incCount (f : Nat → Int) (cid : Nat) : Nat → Int :=
  fun x => if x = cid then f x + 1 else f x

/-- `UPDATE (categories|tags) SET count = count - 1 WHERE id = ?`. -/
def decCount (f : Nat → Int) (cid : Nat) : Nat → Int :=
  fun x => if x = cid then f x - 1 else f x

/-- The attach loop used on create and update: for each id,
`INSERT OR IGNORE` into the join table and increment the counter
(one increment per list element, even when the insert was ignored). -/
def attachTax (pid : Nat) (ids : List Nat) (joins : List (Nat × Nat))
    (counts : Nat → Int) : List (Nat × Nat) × (Nat → Int) :=
  ids.foldl (fun acc cid =>
    ((if (pid, cid) ∈ acc.1 then acc.1 else acc.1 ++ [(pid, cid)]), incCount acc.2 cid))
    (joins, counts)

structure CreatePostBody where
  title : Option String
  content : Option String
  excerpt : Option String
  slug : Option String
  status : Option String
  categories : Option (List Nat)
  tags : Option (List Nat)
  featured_media : Option Nat
  featured_image_url : Option String

/-- POST /wp/v2/posts.  `genExcerpt` stands for `generateExcerptWithAI`
(an external generative call with its own fallback), `aiResp` for the
raw AI slug response (`none` = the AI call failed), `now` for
`new Date().toISOString()`.  Returns the created row, the new state and
the list of `sendWebhook` invocations (event names). -/
def createPost (genExcerpt : String → String → String) (aiResp : Option String)
    (now : String) (user : JWTPayload) (body : CreatePostBody) (s : BlogState) :
    Except WPError (PostRow × BlogState × List String) :=
  if jsFalsy body.title then
    .error ⟨"rest_invalid_param", "Title is required.", 400⟩
  else
    let title := body.title.getD ""
    let postStatus := jsOr body.status "draft"
    if postStatus == "publish" && !canPublishPost (some user) then
      .error ⟨"rest_cannot_publish", "Sorry, you are not allowed to publish posts.", 403⟩
    else
      let postSlug0 :=
        match body.slug with
        | some sl => if jsTrim sl ≠ "" then jsTrim sl else generateSlugWithAI aiResp title
        | none => generateSlugWithAI aiResp title
      let postSlug := ensureUniqueSlug (s.posts.map (fun p => p.slug)) postSlug0
      let postExcerpt : String :=
        if jsFalsy body.excerpt && !(jsFalsy body.content) then
          genExcerpt title (body.content.getD "")
        else jsOr body.excerpt ""
      let publishedAt := if postStatus == "publish" then some now else none
      let row : PostRow := {
        id := s.nextPostId
        title := title
        content := some (jsOr body.content "")
        excerpt := some postExcerpt
        slug := postSlug
        status := postStatus
        post_type := "post"
        author_id := user.userId
        parent_id := 0
        featured_media_id := jsNatOrNull body.featured_media
        featured_image_url := jsStrOrNull body.featured_image_url
        comment_status := "open"
        comment_count := 0
        view_count := 0
        created_at := now
        updated_at := now
        published_at := publishedAt }
      let s1 := { s with posts := s.posts ++ [row], nextPostId := s.nextPostId + 1 }
      let cats := attachTax row.id (body.categories.getD []) s1.postCats s1.catCounts
      let tgs := attachTax row.id (body.tags.getD []) s1.postTags s1.tagCounts
      let s2 := { s1 with postCats := cats.1, catCounts := cats.2,
                          postTags := tgs.1, tagCounts := tgs.2 }
      let events := if postStatus == "publish" then ["post.published"] else ["post.created"]
      .ok (row, s2, events)

/-- The category-update block of PUT /wp/v2/posts/:id (run when the
request body carries a `categories` array): decrement the counter of
every previously-attached category, delete the join rows, then
insert-or-ignore and increment for every newly-supplied category —
two distinct passes, not a diff. -/
def updatePostCategories (s : BlogState) (postId : Nat) (newCats : List Nat) : BlogState :=
  let oldCats := (s.postCats.filter (fun pc => pc.1 == postId)).map (fun pc => pc.2)
  let counts1 := oldCats.foldl decCount s.catCounts
  let joins1 := s.postCats.filter (fun pc => !(pc.1 == postId))
  let updated := attachTax postId newCats joins1 counts1
  { s with postCats := updated.1, catCounts := updated.2 }

/-! ### User registration (`routes/users.ts`) -/

/-- POST /wp/v2/users/register.  `hashedPassword` stands for the opaque
bcrypt hash of the supplied password; `now` for the timestamp. -/
def registerUser (s : BlogState) (hashedPassword : String) (now : String)
    (username email password display_name : Option String) :
    Except WPError (UserRow × BlogState) :=
  if jsFalsy username || jsFalsy email || jsFalsy password then
    .error ⟨"rest_invalid_param", "Username, email, and password are required.", 400⟩
  else
    let uname := username.getD ""
    let mail := email.getD ""
    if s.users.any (fun u => u.username == uname || u.email == mail) then
      .error ⟨"existing_user_login", "Sorry, that username or email already exists!", 400⟩
    else
      let isFirstUser := s.users.length == 0
      let userRole := if isFirstUser then "administrator" else "subscriber"
      let row : UserRow := {
        id := s.nextUserId
        username := uname
        email := mail
        password := hashedPassword
        display_name := some (jsOr display_name uname)
        role := userRole
        status := "active"
        registered_at := now
        last_login := none
        avatar_url := none
        bio := none }
      .ok (row, { s with users := s.users ++ [row], nextUserId := s.nextUserId + 1 })

/-! ### Comment endpoints (`routes/comments.ts`) -/

def emailAtomChar (c : Char) : Bool := !(c.isWhitespace || c = '@')

/-- A `'.'` strictly inside the list (neither first nor last). -/
def hasInternalDot (l : List Char) : Bool :=
  match l with
  | [] => false
  | _ :: rest => rest.dropLast.contains '.'

/-- The guest-email check `/^[^\s@]+@[^\s@]+\.[^\s@]+$/`: exactly one
`@`, a non-empty run of non-space non-`@` characters on each side, and
a dot strictly inside the domain part. -/
def isValidEmail (s : String) : Bool :=
  match s.data.splitOn '@' with
  | [lpart, dpart] =>
    !lpart.isEmpty && lpart.all emailAtomChar && dpart.all emailAtomChar && hasInternalDot dpart
  | _ => false

structure CreateCommentBody where
  post : Option Nat
  parent : Option Nat
  author_name : Option String
  author_email : Option String
  author_url : Option String
  content : Option String

/-- POST /wp/v2/comments — optional auth; on success the comment is
stored with status `approved` and the target post's `comment_count` is
incremented.  `cfIp`/`xfIp` are the `CF-Connecting-IP` /
`X-Forwarded-For` headers.  When the resolved author name or email is
still `undefined` (authenticated token whose user row is gone and no
body fallback), the D1 insert hits the NOT NULL constraint and the
handler's catch yields a 500. -/
def createComment (s : BlogState) (viewer : Option JWTPayload)
    (body : CreateCommentBody) (cfIp xfIp : Option String) (now : String) :
    Except WPError (CommentRow × BlogState) :=
  if (match body.post with | none => true | some p => p == 0) then
    .error ⟨"rest_missing_callback_param", "Missing parameter(s): post", 400⟩
  else if jsFalsy body.content || jsTrim (body.content.getD "") == "" then
    .error ⟨"rest_missing_callback_param", "Missing parameter(s): content", 400⟩
  else
    let postId := body.post.getD 0
    let userId : Option Nat := viewer.map (fun u => u.userId)
    let resolved : Option String × Option String :=
      match userId with
      | some uid =>
        match s.users.find? (fun u => u.id == uid) with
        | some urec => (some (jsOr urec.display_name urec.username), some urec.email)
        | none => (body.author_name, body.author_email)
      | none => (body.author_name, body.author_email)
    if userId == none && (jsFalsy body.author_name || jsFalsy body.author_email) then
      .error ⟨"rest_missing_callback_param", "Missing parameter(s): author_name, author_email", 400⟩
    else if userId == none && !(isValidEmail (body.author_email.getD "")) then
      .error ⟨"rest_invalid_param", "Invalid author_email.", 400⟩
    else
      match findPost s.posts postId with
      | none => .error ⟨"rest_comment_invalid_post_id", "Invalid post ID.", 404⟩
      | some postRecord =>
        if postRecord.comment_status == "closed" then
          .error ⟨"rest_comment_closed", "Comments are closed for this post.", 403⟩
        else if jsOrNat body.parent 0 ≠ 0 &&
            (s.comments.find? (fun c2 =>
              c2.id == jsOrNat body.parent 0 && c2.post_id == postId)).isNone then
          .error ⟨"rest_comment_invalid_parent", "Invalid parent comment ID.", 400⟩
        else
          match resolved.1, resolved.2 with
          | some nm, some em =>
            let row : CommentRow := {
              id := s.nextCommentId
              post_id := postId
              parent_id := jsOrNat body.parent 0
              author_name := nm
              author_email := em
              author_url := some (jsOr body.author_url "")
              author_ip := some (jsOr cfIp (jsOr xfIp ""))
              content := body.content.getD ""
              status := "approved"
              user_id := userId
              created_at := now }
            let posts2 := s.posts.map (fun p =>
              if p.id == postId then { p with comment_count := p.comment_count + 1 } else p)
            .ok (row, { s with comments := s.comments ++ [row], posts := posts2,
                               nextCommentId := s.nextCommentId + 1 })
          | _, _ =>
            .error ⟨"rest_internal_error", "NOT NULL constraint failed", 500⟩

/-- GET /wp/v2/comments/:id — optional auth; non-approved comments 404
for non-admin viewers (indistinguishable from a missing id); the post
slug comes from a LEFT JOIN, `null` when the post row is missing. -/
def getCommentById (digest : String → String) (s : BlogState)
    (viewer : Option JWTPayload) (id : Nat) (baseUrl : String) :
    Except WPError CommentResponse :=
  let isAdmin := isAdminViewer viewer
  match s.comments.find? (fun c2 => c2.id == id) with
  | none => .error ⟨"rest_comment_invalid_id", "Invalid comment ID.", 404⟩
  | some c2 =>
    if !isAdmin && c2.status ≠ "approved" then
      .error ⟨"rest_comment_invalid_id", "Invalid comment ID.", 404⟩
    else
      let postSlug := (s.posts.find? (fun p => p.id == c2.post_id)).map (fun p => p.slug)
      .ok (formatCommentResponse digest c2 baseUrl postSlug isAdmin)

/-! ### Sample inputs for concrete instantiations -/

def emptyState : BlogState :=
  { users := [], posts := [], comments := [], catCounts := fun _ => 0,
    postCats := [], tagCounts := fun _ => 0, postTags := [],
    nextUserId := 1, nextPostId := 1, nextCommentId := 1 }

def samplePost (id : Nat) (slug status : String) : PostRow :=
  { id := id, title := "Hello World", content := some "body", excerpt := some "",
    slug := slug, status := status, post_type := "post", author_id := 1,
    parent_id := 0, featured_media_id := none, featured_image_url := none,
    comment_status := "open", comment_count := 0, view_count := 0,
    created_at := "2024-01-01T00:00:00Z", updated_at := "2024-01-01T00:00:00Z",
    published_at := none }

def sampleComment : CommentRow :=
  { id := 7, post_id := 1, parent_id := 0, author_name := "Guest",
    author_email := "guest@example.com", author_url := some "",
    author_ip := some "203.0.113.9", content := "Nice post", status := "approved",
    user_id := none, created_at := "2024-01-02T00:00:00Z" }

def commentWithEmail (e : String) : CommentRow :=
  { sampleComment with author_email := e }

def sampleUser (role : String) : JWTPayload :=
  { userId := 1, username := "alice", email := "alice@example.com", role := role }

def sampleUserRow (email : String) : UserRow :=
  { id := 3, username := "alice", email := email, password := "x",
    display_name := some "Alice", role := "author", status := "active",
    registered_at := "2024-01-01T00:00:00Z", last_login := none,
    avatar_url := none, bio := none }

def sampleBody : CreatePostBody :=
  { title := some "Hello World", content := some "body", excerpt := some "e",
    slug := none, status := none, categories := none, tags := none,
    featured_media := none, featured_image_url := none }

def sampleCommentBody : CreateCommentBody :=
  { post := some 1, parent := none, author_name := some "Guest",
    author_email := some "guest@example.com", author_url := none,
    content := some "Nice post" }

def draftState : BlogState :=
  { emptyState with posts := [samplePost 1 "d" "draft"], nextPostId := 2 }

def stateC2 : BlogState :=
  { emptyState with comments := [sampleComment] }

def stateC4 : BlogState :=
  { emptyState with
    postCats := [(5, 1), (5, 2)]
    catCounts := fun c => if c = 1 then 1 else if c = 2 then 1 else 0 }

def stateWithSlugs (slugs : List String) : BlogState :=
  { emptyState with posts := slugs.map (fun sl => samplePost 1 sl "publish") }

def stateC10 : BlogState :=
  { emptyState with posts := [samplePost 1 "hello-world" "publish"], nextPostId := 2 }

def createPostC5 : Except WPError (PostRow × BlogState × List String) :=
  createPost (fun _ _ => "") none "t" (sampleUser "author") sampleBody emptyState

def rowC5 : PostRow :=
  match createPostC5 with
  | .ok (r, _, _) => r
  | .error _ => samplePost 0 "" ""

def stateAfterC5 : BlogState :=
  match createPostC5 with
  | .ok (_, st, _) => st
  | .error _ => emptyState

def eventsC5 : List String :=
  match createPostC5 with
  | .ok (_, _, ev) => ev
  | .error _ => []

def regCall1 : Except WPError (UserRow × BlogState) :=
  registerUser emptyState "h" "t" (some "alice") (some "a@e.c") (some "pw") none

def regRow1 : UserRow :=
  match regCall1 with
  | .ok (u, _) => u
  | .error _ => sampleUserRow ""

def regState1 : BlogState :=
  match regCall1 with
  | .ok (_, st) => st
  | .error _ => emptyState

def regCall2 : Except WPError (UserRow × BlogState) :=
  registerUser regState1 "h" "t" (some "bob") (some "b@e.c") (some "pw") none

def regRow2 : UserRow :=
  match regCall2 with
  | .ok (u, _) => u
  | .error _ => sampleUserRow ""

def regState2 : BlogState :=
  match regCall2 with
  | .ok (_, st) => st
  | .error _ => emptyState

def ccCall : Except WPError (CommentRow × BlogState) :=
  createComment stateC10 none sampleCommentBody none none "t"

def ccRow : CommentRow :=
  match ccCall with
  | .ok (r, _) => r
  | .error _ => sampleComment

def ccState : BlogState :=
  match ccCall with
  | .ok (_, st) => st
  | .error _ => emptyState

/-! ## Theorems -/

/-! ### Decimal rendering and the slug-collision loop -/

theorem decodeRev_digitsRevAux : ∀ fuel n, n ≤ fuel → decodeRev (digitsRevAux fuel n) = n := by
  intro fuel
  induction fuel with
  | zero =>
    intro n hn
    interval_cases n
    simp [digitsRevAux, decodeRev]
  | succ f ih =>
    intro n hn
    by_cases h0 : n = 0
    · simp [digitsRevAux, h0, decodeRev]
    · have hdiv : n / 10 < n := Nat.div_lt_self (Nat.pos_of_ne_zero h0) (by omega)
      have hle : n / 10 ≤ f := by omega
      simp only [digitsRevAux, h0, if_false, decodeRev]
      rw [ih (n / 10) hle]
      exact Nat.mod_add_div n 10

theorem digitsRevAux_lt_ten : ∀ fuel n d, d ∈ digitsRevAux fuel n → d < 10 := by
  intro fuel
  induction fuel with
  | zero => intro n d hd; simp [digitsRevAux] at hd
  | succ f ih =>
    intro n d hd
    by_cases h0 : n = 0
    · simp [digitsRevAux, h0] at hd
    · simp only [digitsRevAux, h0, if_false, List.mem_cons] at hd
      rcases hd with h | h
      · subst h; exact Nat.mod_lt n (by omega)
      · exact ih _ _ h

theorem digitChar_inj_lt_ten :
    ∀ a, a < 10 → ∀ b, b < 10 → Nat.digitChar a = Nat.digitChar b → a = b := by decide

theorem map_digitChar_inj : ∀ (l1 l2 : List Nat),
    (∀ d ∈ l1, d < 10) → (∀ d ∈ l2, d < 10) →
    l1.map Nat.digitChar = l2.map Nat.digitChar → l1 = l2 := by
  intro l1
  induction l1 with
  | nil => intro l2 _ _ h; cases l2 <;> simp_all
  | cons a t ih =>
    intro l2 h1 h2 h
    cases l2 with
    | nil => simp at h
    | cons b t2 =>
      simp only [List.map_cons, List.cons.injEq] at h
      have ha : a < 10 := h1 a (List.mem_cons_self a t)
      have hb : b < 10 := h2 b (List.mem_cons_self b t2)
      have hab : a = b := digitChar_inj_lt_ten a ha b hb h.1
      have ht : t = t2 := ih t2 (fun d hd => h1 d (List.mem_cons_of_mem a hd))
        (fun d hd => h2 d (List.mem_cons_of_mem b hd)) h.2
      rw [hab, ht]

theorem numToString_inj_pos : ∀ a b : Nat, a ≠ 0 → b ≠ 0 →
    numToString a = numToString b → a = b := by
  intro a b ha hb h
  simp only [numToString, ha, hb, if_false] at h
  have hdata : (((digitsRev a).map Nat.digitChar).reverse : List Char)
      = ((digitsRev b).map Nat.digitChar).reverse := by
    injection h
  have hmap : (digitsRev a).map Nat.digitChar = (digitsRev b).map Nat.digitChar :=
    List.reverse_injective hdata
  have hdig : digitsRev a = digitsRev b :=
    map_digitChar_inj _ _ (fun d hd => digitsRevAux_lt_ten a a d hd)
      (fun d hd => digitsRevAux_lt_ten b b d hd) hmap
  have := congrArg decodeRev hdig
  unfold digitsRev at this
  rwa [decodeRev_digitsRevAux a a (le_refl a), decodeRev_digitsRevAux b b (le_refl b)] at this

theorem numToString_ne_empty (n : Nat) (hn : n ≠ 0) : (numToString n).data ≠ [] := by
  simp only [numToString, hn, if_false]
  obtain ⟨m, rfl⟩ := Nat.exists_eq_succ_of_ne_zero hn
  simp [digitsRev, digitsRevAux]

theorem string_append_data (s t : String) : (s ++ t).data = s.data ++ t.data := rfl

theorem slugCandidate_injective (base : String) : Function.Injective (slugCandidate base) := by
  intro j k h
  match j, k with
  | 0, 0 => rfl
  | 0, k+1 =>
    exfalso
    have hd := congrArg String.data h
    simp only [slugCandidate, string_append_data] at hd
    have hlen := congrArg List.length hd
    simp only [List.length_append] at hlen
    have hne := numToString_ne_empty (k+1) (Nat.succ_ne_zero k)
    have : (numToString (k+1)).data.length ≠ 0 := fun hz => hne (List.eq_nil_of_length_eq_zero hz)
    have hone : ("-" : String).data.length = 1 := rfl
    omega
  | j+1, 0 =>
    exfalso
    have hd := congrArg String.data h
    simp only [slugCandidate, string_append_data] at hd
    have hlen := congrArg List.length hd
    simp only [List.length_append] at hlen
    have hne := numToString_ne_empty (j+1) (Nat.succ_ne_zero j)
    have : (numToString (j+1)).data.length ≠ 0 := fun hz => hne (List.eq_nil_of_length_eq_zero hz)
    have hone : ("-" : String).data.length = 1 := rfl
    omega
  | j+1, k+1 =>
    have hd := congrArg String.data h
    simp only [slugCandidate, string_append_data, List.append_assoc] at hd
    have h2 := List.append_cancel_left hd
    have h3 := List.append_cancel_left h2
    have h4 : numToString (j+1) = numToString (k+1) := by
      cases hm : numToString (j+1) with
      | mk d1 =>
        cases hn : numToString (k+1) with
        | mk d2 =>
          have : d1 = d2 := by rw [hm, hn] at h3; exact h3
          rw [this]
    have := numToString_inj_pos (j+1) (k+1) (Nat.succ_ne_zero j) (Nat.succ_ne_zero k) h4
    omega

theorem exists_unused_candidate (taken : List String) (base : String) :
    ∃ k, k ≤ taken.length ∧ slugCandidate base k ∉ taken := by
  by_contra hcon
  push_neg at hcon
  set n := taken.length with hn
  set l : List String := (List.range (n+1)).map (slugCandidate base) with hl
  have hnodup : l.Nodup := (List.nodup_range (n+1)).map (slugCandidate_injective base)
  have hsub : ∀ x ∈ l, x ∈ taken := by
    intro x hx
    rw [hl, List.mem_map] at hx
    obtain ⟨k, hk, rfl⟩ := hx
    rw [List.mem_range] at hk
    exact hcon k (by omega)
  have hlen : l.length = n + 1 := by rw [hl, List.length_map, List.length_range]
  have hcard1 : l.toFinset.card = n + 1 := by
    rw [List.toFinset_card_of_nodup hnodup, hlen]
  have hcard2 : l.toFinset ⊆ taken.toFinset := by
    intro x hx
    rw [List.mem_toFinset] at hx ⊢
    exact hsub x hx
  have hcard3 : taken.toFinset.card ≤ n := by
    calc taken.toFinset.card ≤ taken.length := taken.toFinset_card_le
    _ = n := hn.symm
  have := Finset.card_le_card hcard2
  omega

theorem findSlug_spec (taken : List String) (base : String) :
    ∀ fuel k, (∃ j, k ≤ j ∧ j ≤ k + fuel ∧ slugCandidate base j ∉ taken) →
    ∃ s, findSlug taken base fuel k = some s ∧ s ∉ taken := by
  intro fuel
  induction fuel with
  | zero =>
    intro k ⟨j, hkj, hjk, hfree⟩
    have : j = k := by omega
    subst this
    refine ⟨slugCandidate base j, ?_, hfree⟩
    simp only [findSlug]
    rw [if_neg hfree]
  | succ f ih =>
    intro k ⟨j, hkj, hjk, hfree⟩
    by_cases hmem : slugCandidate base k ∈ taken
    · have hne : j ≠ k := fun he => hfree (he ▸ hmem)
      have : ∃ j2, k + 1 ≤ j2 ∧ j2 ≤ (k + 1) + f ∧ slugCandidate base j2 ∉ taken :=
        ⟨j, by omega, by omega, hfree⟩
      obtain ⟨s, hs, hsf⟩ := ih (k+1) this
      refine ⟨s, ?_, hsf⟩
      simp only [findSlug]
      rw [if_pos hmem]
      exact hs
    · refine ⟨slugCandidate base k, ?_, hmem⟩
      simp only [findSlug]
      rw [if_neg hmem]

theorem ensureUniqueSlug_not_taken (taken : List String) (base : String) :
    ensureUniqueSlug taken base ∉ taken := by
  obtain ⟨j, hj, hfree⟩ := exists_unused_candidate taken base
  obtain ⟨s, hs, hsf⟩ := findSlug_spec taken base taken.length 0 ⟨j, Nat.zero_le j, by omega, hfree⟩
  unfold ensureUniqueSlug
  rw [hs]
  exact hsf

/-- `findPost` commutes with the comment-count bump (the update changes
neither `id` nor `post_type`). -/
theorem findPost_map_inc_count (posts : List PostRow) (pid target : Nat) :
    findPost (posts.map (fun p =>
        if p.id == target then { p with comment_count := p.comment_count + 1 } else p)) pid
      = (findPost posts pid).map (fun p =>
        if p.id == target then { p with comment_count := p.comment_count + 1 } else p) := by
  unfold findPost
  rw [List.find?_map]
  have hcomp : ((fun p => p.id == pid && p.post_type == "post") ∘ (fun p : PostRow =>
      if p.id == target then { p with comment_count := p.comment_count + 1 } else p))
      = (fun p : PostRow => p.id == pid && p.post_type == "post") := by
    funext p
    by_cases hp : p.id == target <;> simp [Function.comp, hp]
  rw [hcomp]

/-! ### Claim theorems -/

/-- C1 counterexample: a user of role author and a post whose
`author_id` equals that user's id — the claim says the delete-post
predicate grants the action, but `canDeletePost` returns `false` (it
only ever consults the role, never the post's author). -/
theorem canDeletePost_denies_owning_author :
    (samplePost 42 "s" "publish").author_id = (sampleUser "author").userId
    ∧ canDeletePost (some (sampleUser "author")) (samplePost 42 "s" "publish").id = false := by
  decide

/-- C1 (amended): `canDeletePost`, as consulted by DELETE
/wp/v2/posts/:id, grants the action exactly to administrator and
editor; author and contributor are denied even on posts whose
`author_id` equals their own id, and subscriber and anonymous callers
are denied. -/
theorem canDeletePost_admin_editor_only (u : JWTPayload) (pid : Nat) :
    (canDeletePost (some u) pid = true ↔ (u.role = "administrator" ∨ u.role = "editor"))
    ∧ canDeletePost none pid = false := by
  constructor
  · simp [canDeletePost]
  · rfl

/-- C3 counterexample: a draft post requested by an anonymous viewer is
served successfully — GET /wp/v2/posts/:id performs no visibility
check, so the claim that such a request yields NotFound is false. -/
theorem getPostById_serves_draft_to_anonymous :
    (samplePost 1 "d" "draft").status = "draft"
    ∧ (getPostById draftState none 1 "http://b").isOk = true := by
  decide

/-- C3 (amended): GET /wp/v2/posts/:id returns NotFound (404) exactly
when no row with that id and post_type `post` exists; when the row
exists it is returned regardless of its status (draft, private,
trashed) and regardless of the viewer, whose identity the handler never
reads. -/
theorem getPostById_404_iff_missing (s : BlogState) (v w : Option JWTPayload)
    (id : Nat) (baseUrl : String) :
    ((∃ e, getPostById s v id baseUrl = .error e ∧ e.status = 404)
      ↔ findPost s.posts id = none)
    ∧ getPostById s v id baseUrl = getPostById s w id baseUrl := by
  constructor
  · constructor
    · rintro ⟨e, he, _⟩
      cases hf : findPost s.posts id with
      | none => rfl
      | some p =>
        rw [getPostById, hf] at he
        exact absurd he (by simp)
    · intro hf
      refine ⟨⟨"rest_post_invalid_id", "Invalid post ID.", 404⟩, ?_, rfl⟩
      rw [getPostById, hf]
  · rfl

/-- C4: replacing a post's category set [1,2] by [2,3] through the PUT
handler's two-pass counter update leaves category 1 decremented by one,
category 2 unchanged, and category 3 incremented by one. -/
theorem updatePostCategories_two_pass_counts (s : BlogState) (pid : Nat)
    (h : (s.postCats.filter (fun pc => pc.1 == pid)).map (fun pc => pc.2) = [1, 2]) :
    ((updatePostCategories s pid [2, 3]).catCounts 1 = s.catCounts 1 - 1)
    ∧ ((updatePostCategories s pid [2, 3]).catCounts 2 = s.catCounts 2)
    ∧ ((updatePostCategories s pid [2, 3]).catCounts 3 = s.catCounts 3 + 1) := by
  unfold updatePostCategories attachTax
  rw [h]
  simp only [List.foldl_cons, List.foldl_nil]
  refine ⟨?_, ?_, ?_⟩ <;> simp [incCount, decCount]

/-- C4 witness: the scenario run on a concrete state (post 5 attached
to categories 1 and 2, counts consistent). -/
theorem updatePostCategories_two_pass_counts_witness :
    ((updatePostCategories stateC4 5 [2, 3]).catCounts 1 = stateC4.catCounts 1 - 1)
    ∧ ((updatePostCategories stateC4 5 [2, 3]).catCounts 2 = stateC4.catCounts 2)
    ∧ ((updatePostCategories stateC4 5 [2, 3]).catCounts 3 = stateC4.catCounts 3 + 1) :=
  updatePostCategories_two_pass_counts stateC4 5 (by decide)

/-- C2: `formatCommentResponse` (also as reached through
GET /wp/v2/comments/:id) never includes `author_email` or `author_ip`
when `isAdmin` is false, and with `isAdmin` true both fields are
present, equal to the stored values. -/
theorem formatCommentResponse_redaction (digest : String → String) (c : CommentRow)
    (baseUrl : String) (postSlug : Option String) :
    ((formatCommentResponse digest c baseUrl postSlug false).author_email = none
      ∧ (formatCommentResponse digest c baseUrl postSlug false).author_ip = none)
    ∧ (formatCommentResponse digest c baseUrl postSlug true).author_email = some c.author_email
    ∧ (∀ ip, c.author_ip = some ip →
        (formatCommentResponse digest c baseUrl postSlug true).author_ip = some ip)
    ∧ (∀ (s : BlogState) (viewer : Option JWTPayload) (id : Nat) (resp : CommentResponse),
        isAdminViewer viewer = false →
        getCommentById digest s viewer id baseUrl = .ok resp →
        resp.author_email = none ∧ resp.author_ip = none) := by
  refine ⟨⟨rfl, rfl⟩, rfl, ?_, ?_⟩
  · intro ip hip
    simp only [formatCommentResponse, hip, jsOr]
    by_cases h0 : ip = "" <;> simp [h0]
  · intro s viewer id resp hAdm hok
    simp only [getCommentById, hAdm] at hok
    split at hok
    · exact absurd hok (by simp)
    · split at hok
      · exact absurd hok (by simp)
      · injection hok with h2
        subst h2
        exact ⟨rfl, rfl⟩

/-- C2 witness: a stored guest comment with an IP — admin view exposes
the stored IP, non-admin view (also through the endpoint) has neither
field. -/
theorem formatCommentResponse_redaction_witness :
    (formatCommentResponse (fun s => s) sampleComment "http://b" none true).author_ip
      = some "203.0.113.9"
    ∧ ((formatCommentResponse (fun s => s) sampleComment "http://b" none false).author_email = none
      ∧ (formatCommentResponse (fun s => s) sampleComment "http://b" none false).author_ip = none) := by
  have t := formatCommentResponse_redaction (fun s => s) sampleComment "http://b" none
  exact ⟨t.2.2.1 "203.0.113.9" rfl,
    t.2.2.2 stateC2 none 7
      (formatCommentResponse (fun s => s) sampleComment "http://b" none false) rfl rfl⟩

/-- C9: two emails that agree after lower-casing and trimming produce
identical Gravatar avatar URLs at all three sizes, both for users
without an explicit avatar URL and for comment authors, for any digest
primitive. -/
theorem gravatar_determinism (digest : String → String)
    (u1 u2 : UserRow) (c1 c2 : CommentRow) (baseUrl : String) (isAdmin : Bool)
    (postSlug : Option String)
    (hu1 : u1.avatar_url = none) (hu2 : u2.avatar_url = none)
    (hu : jsTrim (jsToLower u1.email) = jsTrim (jsToLower u2.email))
    (hc : jsTrim (jsToLower c1.author_email) = jsTrim (jsToLower c2.author_email)) :
    (formatUserResponse digest u1 baseUrl isAdmin).avatar_urls
      = (formatUserResponse digest u2 baseUrl isAdmin).avatar_urls
    ∧ (formatCommentResponse digest c1 baseUrl postSlug isAdmin).author_avatar_urls
      = (formatCommentResponse digest c2 baseUrl postSlug isAdmin).author_avatar_urls := by
  have h1 : md5 digest u1.email = md5 digest u2.email := by
    unfold md5; rw [hu]
  have h2 : md5 digest c1.author_email = md5 digest c2.author_email := by
    unfold md5; rw [hc]
  constructor
  · simp [formatUserResponse, hu1, hu2, h1, jsOr]
  · simp [formatCommentResponse, h2]

/-- C9 witness: the spec's example pair of emails. -/
theorem gravatar_determinism_witness :
    (formatUserResponse (fun s => s) (sampleUserRow " User@Example.COM ") "http://b" false).avatar_urls
      = (formatUserResponse (fun s => s) (sampleUserRow "user@example.com") "http://b" false).avatar_urls
    ∧ (formatCommentResponse (fun s => s) (commentWithEmail " User@Example.COM ") "http://b" none false).author_avatar_urls
      = (formatCommentResponse (fun s => s) (commentWithEmail "user@example.com") "http://b" none false).author_avatar_urls :=
  gravatar_determinism (fun s => s) (sampleUserRow " User@Example.COM ")
    (sampleUserRow "user@example.com") (commentWithEmail " User@Example.COM ")
    (commentWithEmail "user@example.com") "http://b" false none rfl rfl
    (by decide) (by decide)

/-- C7: a successful registration against an empty users table creates
an administrator; against a non-empty table it creates a subscriber. -/
theorem registerUser_first_admin_rest_subscriber (s : BlogState)
    (hp now : String) (username email password dn : Option String)
    (u : UserRow) (s2 : BlogState)
    (h : registerUser s hp now username email password dn = .ok (u, s2)) :
    (s.users = [] → u.role = "administrator")
    ∧ (s.users ≠ [] → u.role = "subscriber") := by
  simp only [registerUser] at h
  split at h
  · exact absurd h (by simp)
  · split at h
    · exact absurd h (by simp)
    · simp only [Except.ok.injEq, Prod.mk.injEq] at h
      obtain ⟨hu, -⟩ := h
      constructor
      · intro he
        rw [← hu]
        simp [he]
      · intro hne
        rw [← hu]
        have : s.users.length ≠ 0 := fun hz => hne (List.eq_nil_of_length_eq_zero hz)
        simp [this]

/-- C7 witness: two consecutive registrations starting from the empty
table. -/
theorem registerUser_first_admin_rest_subscriber_witness :
    regRow1.role = "administrator" ∧ regRow2.role = "subscriber" := by
  have h1 : registerUser emptyState "h" "t" (some "alice") (some "a@e.c") (some "pw") none
      = .ok (regRow1, regState1) := rfl
  have h2 : registerUser regState1 "h" "t" (some "bob") (some "b@e.c") (some "pw") none
      = .ok (regRow2, regState2) := rfl
  have t1 := registerUser_first_admin_rest_subscriber emptyState "h" "t"
    (some "alice") (some "a@e.c") (some "pw") none regRow1 regState1 h1
  have t2 := registerUser_first_admin_rest_subscriber regState1 "h" "t"
    (some "bob") (some "b@e.c") (some "pw") none regRow2 regState2 h2
  exact ⟨t1.1 rfl, t2.2 (by decide)⟩

/-- C5: a successful POST /wp/v2/posts dispatches exactly one webhook
event — `post.published` when the effective status is publish (never
`post.created` in addition), `post.created` for every other status. -/
theorem createPost_webhook_single_fire (genExcerpt : String → String → String)
    (aiResp : Option String) (now : String) (user : JWTPayload)
    (body : CreatePostBody) (s : BlogState) (row : PostRow) (s2 : BlogState)
    (events : List String)
    (h : createPost genExcerpt aiResp now user body s = .ok (row, s2, events)) :
    events.length = 1
    ∧ (jsOr body.status "draft" = "publish" →
        events = ["post.published"] ∧ "post.created" ∉ events)
    ∧ (jsOr body.status "draft" ≠ "publish" → events = ["post.created"]) := by
  simp only [createPost] at h
  split at h
  · exact absurd h (by simp)
  · split at h
    · exact absurd h (by simp)
    · simp only [Except.ok.injEq, Prod.mk.injEq] at h
      obtain ⟨-, -, hev⟩ := h
      by_cases hp : jsOr body.status "draft" = "publish"
      · rw [← hev, if_pos (by simp [hp])]
        exact ⟨rfl, fun _ => ⟨rfl, by decide⟩, fun hne => absurd hp hne⟩
      · rw [← hev, if_neg (by simp [hp])]
        exact ⟨rfl, fun hq => absurd hq hp, fun _ => rfl⟩

/-- C5 witness: a concrete creation with default (draft) status fires
exactly the single `post.created` event. -/
theorem createPost_webhook_single_fire_witness :
    eventsC5.length = 1 ∧ eventsC5 = ["post.created"] := by
  have h : createPost (fun _ _ => "") none "t" (sampleUser "author") sampleBody emptyState
      = .ok (rowC5, stateAfterC5, eventsC5) := rfl
  have t := createPost_webhook_single_fire (fun _ _ => "") none "t" (sampleUser "author")
    sampleBody emptyState rowC5 stateAfterC5 eventsC5 h
  exact ⟨t.1, t.2.2 (by decide)⟩

/-- C8: for a contributor (or subscriber) and any request body with a
title, POST /wp/v2/posts with status publish fails 403 with the
`rest_cannot_publish` error before anything is inserted (the error is
returned upstream of every INSERT, so no post is created), while the
same body with status draft succeeds; and `canPublishPost` holds
exactly for administrator, editor and author. -/
theorem createPost_publish_gating (genExcerpt : String → String → String)
    (aiResp : Option String) (now : String) (user : JWTPayload)
    (body : CreatePostBody) (s : BlogState)
    (hrole : user.role = "contributor" ∨ user.role = "subscriber")
    (htitle : jsFalsy body.title = false) :
    (createPost genExcerpt aiResp now user { body with status := some "publish" } s
      = .error ⟨"rest_cannot_publish", "Sorry, you are not allowed to publish posts.", 403⟩)
    ∧ (createPost genExcerpt aiResp now user { body with status := some "draft" } s).isOk = true
    ∧ (∀ v : JWTPayload, canPublishPost (some v) = true ↔
        (v.role = "administrator" ∨ v.role = "editor" ∨ v.role = "author")) := by
  have hpub : canPublishPost (some user) = false := by
    rcases hrole with h | h <;> simp [canPublishPost, h]
  refine ⟨?_, ?_, ?_⟩
  · simp [createPost, htitle, jsOr, hpub]
  · simp [createPost, htitle, jsOr, Except.isOk, Except.toBool]
  · intro v
    simp [canPublishPost]

/-- C8 witness: a concrete contributor with the sample body. -/
theorem createPost_publish_gating_witness :
    (createPost (fun _ _ => "") none "t" (sampleUser "contributor")
      { sampleBody with status := some "publish" } emptyState
      = .error ⟨"rest_cannot_publish", "Sorry, you are not allowed to publish posts.", 403⟩)
    ∧ (createPost (fun _ _ => "") none "t" (sampleUser "contributor")
      { sampleBody with status := some "draft" } emptyState).isOk = true := by
  have t := createPost_publish_gating (fun _ _ => "") none "t" (sampleUser "contributor")
    sampleBody emptyState (Or.inl rfl) (by decide)
  exact ⟨t.1, t.2.1⟩

/-- C6: with an existing post slugged `hello-world`, creating a post
titled `Hello World` with no explicit slug (deterministic fallback,
AI unavailable) stores `hello-world-1`, a third stores `hello-world-2`;
and in general the collision loop terminates within a number of probes
bounded by the number of existing rows, producing a slug not yet
taken. -/
theorem createPost_slug_uniqueness :
    (match createPost (fun _ _ => "") none "t" (sampleUser "author") sampleBody
        (stateWithSlugs ["hello-world"]) with
     | .ok (row, _, _) => row.slug
     | .error _ => "") = "hello-world-1"
    ∧ (match createPost (fun _ _ => "") none "t" (sampleUser "author") sampleBody
        (stateWithSlugs ["hello-world", "hello-world-1"]) with
     | .ok (row, _, _) => row.slug
     | .error _ => "") = "hello-world-2"
    ∧ ∀ (taken : List String) (base : String),
        ensureUniqueSlug taken base ∉ taken
        ∧ ∃ k, k ≤ taken.length ∧ slugCandidate base k ∉ taken := by
  refine ⟨by decide, by decide, fun taken base => ?_⟩
  exact ⟨ensureUniqueSlug_not_taken taken base, exists_unused_candidate taken base⟩

/-- C10: every comment that POST /wp/v2/comments successfully creates
is stored with status `approved` (auto-approved, never pending), and
the target post's `comment_count` is incremented by exactly one. -/
theorem createComment_auto_approve_and_count (s : BlogState)
    (viewer : Option JWTPayload) (body : CreateCommentBody)
    (cfIp xfIp : Option String) (now : String) (row : CommentRow) (s2 : BlogState)
    (h : createComment s viewer body cfIp xfIp now = .ok (row, s2)) :
    row.status = "approved"
    ∧ row ∈ s2.comments
    ∧ (∃ p p2, findPost s.posts (body.post.getD 0) = some p
        ∧ findPost s2.posts (body.post.getD 0) = some p2
        ∧ p2.comment_count = p.comment_count + 1) := by
  simp only [createComment] at h
  split at h
  · exact absurd h (by simp)
  split at h
  · exact absurd h (by simp)
  split at h
  · exact absurd h (by simp)
  split at h
  · exact absurd h (by simp)
  split at h
  · exact absurd h (by simp)
  next postRecord heq =>
    split at h
    · exact absurd h (by simp)
    split at h
    · exact absurd h (by simp)
    split at h
    · next nm em =>
      simp only [Except.ok.injEq, Prod.mk.injEq] at h
      obtain ⟨hrow, hs2⟩ := h
      have hpred := List.find?_some heq
      rw [Bool.and_eq_true] at hpred
      refine ⟨by rw [← hrow], ?_, ?_⟩
      · rw [← hs2, ← hrow]
        simp
      · refine ⟨postRecord,
          { postRecord with comment_count := postRecord.comment_count + 1 }, heq, ?_, rfl⟩
        rw [← hs2]
        show findPost (s.posts.map _) _ = _
        rw [findPost_map_inc_count]
        unfold findPost
        rw [show List.find? (fun p => p.id == body.post.getD 0 && p.post_type == "post") s.posts
            = some postRecord from heq]
        simp only [Option.map_some']
        rw [if_pos hpred.1]
    · exact absurd h (by simp)

/-- C10 witness: a concrete guest comment on an open post. -/
theorem createComment_auto_approve_and_count_witness :
    ccRow.status = "approved"
    ∧ ccRow ∈ ccState.comments
    ∧ (∃ p p2, findPost stateC10.posts (sampleCommentBody.post.getD 0) = some p
        ∧ findPost ccState.posts (sampleCommentBody.post.getD 0) = some p2
        ∧ p2.comment_count = p.comment_count + 1) := by
  have h : createComment stateC10 none sampleCommentBody none none "t" = .ok (ccRow, ccState) := rfl
  exact createComment_auto_approve_and_count stateC10 none sampleCommentBody none none "t"
    ccRow ccState h

end CFBlog
